import Mathlib

/-!
Verification of the `http-server` repository core against its specification.

Rust strings are modelled as their character sequences (`List Char`); Rust's
`panic!` is modelled by returning `none` from an `Option`-valued function;
fallible Rust functions returning `Result` are modelled with `Except`.
Hash maps (`HashMap<String, _>`) are modelled as association lists whose
operations mirror the `HashMap` operations used by the source
(`insert` replaces, `entry().or_insert` keeps the existing entry,
`get` finds the entry with the equal key); iteration order of a `HashMap`
is unspecified in Rust, the model uses list order.
-/

set_option autoImplicit false

namespace HttpServer

/-- Rust `String` / `&str` values are modelled as their character sequences. -/
abbrev Str := List Char

instance decEqExcept {ε α : Type} [DecidableEq ε] [DecidableEq α] :
    DecidableEq (Except ε α) := fun x y =>
  match x, y with
  | .ok a, .ok b =>
    if h : a = b then isTrue (by rw [h])
    else isFalse (fun hh => by cases hh; exact h rfl)
  | .error a, .error b =>
    if h : a = b then isTrue (by rw [h])
    else isFalse (fun hh => by cases hh; exact h rfl)
  | .ok _, .error _ => isFalse (fun hh => by cases hh)
  | .error _, .ok _ => isFalse (fun hh => by cases hh)

/-- The character sequence of a Lean string literal, used to transcribe Rust
string literals. -/
def str (s : String) : Str := s.data

/-- Rust `s.starts_with(pre)`. -/
def rustStartsWith (s pre : Str) : Bool := pre.isPrefixOf s

/-- Rust `s.strip_suffix(c)` for a one-character pattern: removes one trailing
occurrence of `c` when present. -/
def stripSuffixChar (s : Str) (c : Char) : Option Str :=
  if s.getLast? = some c then some s.dropLast else none

/-- Rust `s.splitn(2, sep)`: at most two pieces, split at the first `sep`. -/
def splitN2 (sep : Char) (s : Str) : List Str :=
  match s.dropWhile (fun c => !(c == sep)) with
  | [] => [s]
  | _ :: tail => [s.takeWhile (fun c => !(c == sep)), tail]

/-- Rust `iterator.collect::<String>()` over string items: concatenation. -/
def joinStr (l : List Str) : Str := l.foldl (fun a b => a ++ b) []

/-- `server/handlers.rs`: `pub struct HandlerPath(String)`. -/
structure HandlerPath where
  val : Str
deriving DecidableEq

/-- `server/handlers.rs`, `HandlerPath::new`:
`panic!` when the argument does not start with `/` (modelled as `none`),
otherwise `Self(path.strip_suffix('/').unwrap_or(path).to_string())`. -/
def handlerPathNew (path : Str) : Option HandlerPath :=
  if rustStartsWith path (str ("/")) then
    some ⟨(stripSuffixChar path '/').getD path⟩
  else
    none

/-- `server/handlers.rs`, `impl TryFrom<Path> for HandlerPath` has
`type Error = &'static str`; the two distinct static error messages are
modelled as the two constructors of this error type. -/
inductive TryFromPathErr where
  /-- "Can&#39;t convert from asterisk form: it&#39;s only used for OPTIONS" -/
  | asteriskForm
  /-- "Can&#39;t convert from authority form: it&#39;s only used for CONNECT" -/
  | authorityForm
deriving DecidableEq

/-- `request/types.rs`: `pub enum Path`. The `u16` port of `AuthorityForm`
is modelled as a `Nat` (its value is always below 2^16 when produced by the
parser). -/
inductive Path where
  | OriginForm (path : Str)
  | AbsoluteForm (path : Str)
  | AuthorityForm (host : Str) (port : Nat)
  | Asterisk
deriving DecidableEq

/-- `server/handlers.rs`, `TryFrom<Path> for HandlerPath::try_from`.
The absolute-form branch tests
`path.splitn(2, '/').skip(1).take(1).collect::<String>().is_empty()` and
returns `HandlerPath("/")` when the test holds, otherwise
`HandlerPath(path.to_string())` (the whole string, unchanged). -/
def tryFromPath : Path → Except TryFromPathErr HandlerPath
  | Path.Asterisk => .error .asteriskForm
  | Path.AuthorityForm _ _ => .error .authorityForm
  | Path.OriginForm path => .ok ⟨path⟩
  | Path.AbsoluteForm path =>
    if joinStr (((splitN2 '/' path).drop 1).take 1) = [] then
      .ok ⟨str ("/")⟩
    else
      .ok ⟨path⟩

/-- C1 counterexample: the claim says `HandlerPath::new` leaves the root
`"/"` unchanged, but `"/".strip_suffix('/')` yields `""`, so the constructed
`HandlerPath` for the root is the empty string (which also has no leading
`/`). -/
theorem c1_root_counterexample :
    handlerPathNew (str ("/")) = some ⟨[]⟩ ∧ ([] : Str) ≠ str ("/") := by
  decide

/-- C1 (amended): for every non-empty `p` starting with `/`,
`HandlerPath::new(p)` strips exactly one trailing `/` when present —
including `p = "/"`, which becomes the empty string; the result keeps its
leading `/` whenever `p ≠ "/"`, and it can retain a trailing `/` only when
`p` ended in two slashes. -/
theorem c1_strips_one_trailing_slash (p : Str) (hne : p ≠ [])
    (hs : rustStartsWith p (str ("/")) = true) :
    ∃ q : Str, handlerPathNew p = some ⟨q⟩ ∧
      (p.getLast? = some '/' → q = p.dropLast) ∧
      (p.getLast? ≠ some '/' → q = p) ∧
      (p = str ("/") → q = []) ∧
      (p ≠ str ("/") → rustStartsWith q (str ("/")) = true) ∧
      (q.getLast? = some '/' →
        p.getLast? = some '/' ∧ p.dropLast.getLast? = some '/') := by
  have hp : ∃ t, p = '/' :: t := by
    cases p with
    | nil => exact absurd rfl hne
    | cons c t =>
      refine ⟨t, ?_⟩
      simp only [rustStartsWith, str, List.isPrefixOf] at hs
      simp_all
      exact hs.symm
  obtain ⟨t, rfl⟩ := hp
  unfold handlerPathNew
  rw [if_pos hs]
  by_cases hl : ('/' :: t).getLast? = some '/'
  · refine ⟨('/' :: t).dropLast, ?_, ?_, ?_, ?_, ?_, ?_⟩
    · simp [stripSuffixChar, hl]
    · intro _; rfl
    · intro h; exact absurd hl h
    · intro h
      rw [h]
      decide
    · intro hroot
      have ht : t ≠ [] := by
        intro h0
        exact hroot (by rw [h0]; rfl)
      obtain ⟨c, t', rfl⟩ : ∃ c t', t = c :: t' := by
        cases t with
        | nil => exact absurd rfl ht
        | cons c t' => exact ⟨c, t', rfl⟩
      simp [List.dropLast, rustStartsWith, str, List.isPrefixOf]
    · intro hq
      exact ⟨hl, hq⟩
  · refine ⟨'/' :: t, ?_, ?_, ?_, ?_, ?_, ?_⟩
    · simp [stripSuffixChar, hl]
    · intro h; exact absurd h hl
    · intro _; rfl
    · intro h
      exact absurd (by rw [h]; rfl) hl
    · intro _; exact hs
    · intro hq
      exact absurd hq hl

/-- Witness for C1: the amended statement evaluated at `p = "/abc/"`. -/
theorem c1_witness :
    ∃ q : Str, handlerPathNew (str ("/abc/")) = some ⟨q⟩ ∧
      ((str ("/abc/")).getLast? = some '/' → q = (str ("/abc/")).dropLast) ∧
      ((str ("/abc/")).getLast? ≠ some '/' → q = str ("/abc/")) ∧
      (str ("/abc/") = str ("/") → q = []) ∧
      (str ("/abc/") ≠ str ("/") → rustStartsWith q (str ("/")) = true) ∧
      (q.getLast? = some '/' →
        (str ("/abc/")).getLast? = some '/' ∧
          (str ("/abc/")).dropLast.getLast? = some '/') :=
  c1_strips_one_trailing_slash (str ("/abc/")) (by decide) (by decide)

/-- C2 counterexample: converting the absolute-form path
`http://example.com/about` does **not** strip the scheme+host prefix; the
resulting `HandlerPath` is the whole URL, not `/about` as the claim states. -/
theorem c2_absolute_not_stripped :
    tryFromPath (Path.AbsoluteForm (str ("http://example.com/about"))) =
      .ok ⟨str ("http://example.com/about")⟩ ∧
      str ("http://example.com/about") ≠ str ("/about") := by
  decide

/-- C2 (amended): origin-form converts directly; absolute-form `p` becomes
`HandlerPath("/")` when `p` has no `/` or nothing after its first `/`, and
otherwise becomes `HandlerPath(p)` unchanged (the scheme+host prefix is not
stripped); authority and asterisk forms convert to an error. -/
theorem c2_try_from_path (p host : Str) (port : Nat) :
    tryFromPath (Path.OriginForm p) = .ok ⟨p⟩ ∧
    tryFromPath (Path.AbsoluteForm p) =
      .ok ⟨if (p.dropWhile (fun c => !(c == '/'))).drop 1 = []
           then str ("/") else p⟩ ∧
    tryFromPath (Path.AuthorityForm host port) = .error .authorityForm ∧
    tryFromPath Path.Asterisk = .error .asteriskForm := by
  refine ⟨rfl, ?_, rfl, rfl⟩
  cases hdw : p.dropWhile (fun c => !(c == '/')) with
  | nil => simp [tryFromPath, splitN2, hdw, joinStr]
  | cons c tail =>
    by_cases ht : tail = [] <;>
      simp [tryFromPath, splitN2, hdw, joinStr, ht]

/-- C10: `HandlerPath::new(p)` panics (modelled: returns `none`) exactly when
`p` does not start with `/`; for every `p` starting with `/` it returns a
value (the remaining operations `strip_suffix` / `unwrap_or` cannot panic). -/
theorem c10_new_panics_iff_no_leading_slash (p : Str) :
    (handlerPathNew p).isSome = rustStartsWith p (str ("/")) := by
  unfold handlerPathNew
  by_cases h : rustStartsWith p (str ("/")) = true <;> simp [h]

/-! ## Request wire types (`request/types.rs`) and the HTTP/1.x head parser
(`request/http1_1.rs`) -/

/-- `request/types.rs`: `pub enum HTTPMethod`. -/
inductive HTTPMethod where
  | Get | Post | Put | Patch | Delete | Connect | Options | Trace | Head
deriving DecidableEq

/-- `request/types.rs`: `pub enum HTTPVersion`. -/
inductive HTTPVersion where
  | V0_9 | V1_0 | V1_1 | V2 | V3
deriving DecidableEq

/-- `request/types.rs`: `pub enum RequestParseError`. -/
inductive RequestParseError where
  | InvalidStartLine (reason : Str)
  | InvalidHeader (lineNo : Str)
  | MissingHostHeader
  | BodyParseError (reason : Str)
  | UnsupportedVersion (version : Str)
deriving DecidableEq

/-- `request/types.rs`: `impl FromStr for HTTPMethod` (`Err(())` is `none`). -/
def httpMethodFromStr (s : Str) : Option HTTPMethod :=
  if s = str ("GET") then some .Get
  else if s = str ("POST") then some .Post
  else if s = str ("PUT") then some .Put
  else if s = str ("PATCH") then some .Patch
  else if s = str ("DELETE") then some .Delete
  else if s = str ("CONNECT") then some .Connect
  else if s = str ("OPTIONS") then some .Options
  else if s = str ("TRACE") then some .Trace
  else if s = str ("HEAD") then some .Head
  else none

/-- `request/types.rs`: `impl FromStr for HTTPVersion`. -/
def httpVersionFromStr (s : Str) : Except RequestParseError HTTPVersion :=
  if s = str ("HTTP/0.9") then .ok .V0_9
  else if s = str ("HTTP/1.0") then .ok .V1_0
  else if s = str ("HTTP/1.1") then .ok .V1_1
  else .error (.UnsupportedVersion s)

/-- Rust `u16::from_str`: an optional leading `+`, then one or more ASCII
digits, value at most `u16::MAX` (overflow is a parse error). -/
def parseU16 (s : Str) : Option Nat :=
  let digits := match s with
    | '+' :: rest => rest
    | _ => s
  if digits ≠ [] ∧ digits.all Char.isDigit then
    let v := digits.foldl (fun acc c => acc * 10 + (c.toNat - 48)) 0
    if v ≤ 65535 then some v else none
  else none

/-- `request/types.rs`: `impl FromStr for Path` (`Err(())` is `none`). -/
def pathFromStr (path : Str) : Option Path :=
  if rustStartsWith path (str ("/")) then some (.OriginForm path)
  else if rustStartsWith path (str ("http://")) then some (.AbsoluteForm path)
  else if path.contains ':' then
    match splitN2 ':' path with
    | [domain, port] =>
      match parseU16 port with
      | some parsedPort => some (.AuthorityForm domain parsedPort)
      | none => none
    | _ => none
  else if path = str ("*") then some .Asterisk
  else none

/-- Rust `s.split(sep)` for a one-character separator: consecutive separators
and separators at either end produce empty pieces; splitting the empty string
yields one empty piece. -/
def splitChar (sep : Char) : Str → List Str
  | [] => [[]]
  | c :: rest =>
    if c = sep then [] :: splitChar sep rest
    else
      match splitChar sep rest with
      | [] => [[c]]
      | g :: gs => (c :: g) :: gs

/-- A piece produced by `split('\n')` that was followed by a newline has one
trailing `'\r'` removed (the `\r\n` line terminator). -/
def stripCR (l : Str) : Str := if l.getLast? = some '\r' then l.dropLast else l

/-- Helper for `rustLines`: every piece except the last was followed by a
newline, so its trailing `'\r'` is stripped; a final empty piece (from a
trailing newline) is not a line. -/
def rustLinesAux : List Str → List Str
  | [] => []
  | [p] => if p = [] then [] else [p]
  | p :: ps => stripCR p :: rustLinesAux ps

/-- Rust `s.lines()`: split at `\n` or `\r\n`; the final line ending is
optional, and a lone trailing `\r` not followed by `\n` is kept. -/
def rustLines (s : Str) : List Str := rustLinesAux (splitChar '\n' s)

/-- `request/types.rs`: `pub type HTTPHeaders = HashMap<String, String>`,
modelled as an association list. -/
abbrev HTTPHeaders := List (Str × Str)

/-- `HashMap::insert`: replaces the value of an existing key, otherwise adds
the entry. -/
def hdrInsert (m : HTTPHeaders) (k v : Str) : HTTPHeaders :=
  match m with
  | [] => [(k, v)]
  | (k', v') :: rest =>
    if k' = k then (k, v) :: rest else (k', v') :: hdrInsert rest k v

/-- `HashMap::get`. -/
def hdrGet (m : HTTPHeaders) (k : Str) : Option Str :=
  match m with
  | [] => none
  | (k', v') :: rest => if k' = k then some v' else hdrGet rest k

/-- Rust `str::to_lowercase` restricted to ASCII (header names are ASCII). -/
def toLowerStr (s : Str) : Str := s.map Char.toLower

/-- `request/http1_1.rs`: `struct StartLine`. -/
structure StartLine where
  method : HTTPMethod
  path : Path
  version : HTTPVersion
deriving DecidableEq

/-- `request/http1_1.rs`, `parse_start_line`: the segments are
`line.split(' ').take(3)`, so at most three are ever collected and the
`4.. => Err("Too many segments")` arm of the `match` is unreachable.
In the three-segment arm the version is parsed before method and path. -/
def parseStartLine (line : Str) : Except RequestParseError StartLine :=
  match (splitChar ' ' line).take 3 with
  | [] => .error (.InvalidStartLine (str ("Empty")))
  | [_] => .error (.InvalidStartLine (str ("Too few segments")))
  | [m, p] =>
    match httpMethodFromStr m with
    | none => .error (.InvalidStartLine (str ("Invalid method")))
    | some method =>
      match pathFromStr p with
      | none => .error (.InvalidStartLine (str ("Invalid path")))
      | some path => .ok ⟨method, path, .V0_9⟩
  | [m, p, v] =>
    match httpVersionFromStr v with
    | .error _ => .error (.InvalidStartLine (str ("Invalid HTTP version")))
    | .ok version =>
      match httpMethodFromStr m with
      | none => .error (.InvalidStartLine (str ("Invalid method")))
      | some method =>
        match pathFromStr p with
        | none => .error (.InvalidStartLine (str ("Invalid path")))
        | some path => .ok ⟨method, path, version⟩
  | _ :: _ :: _ :: _ :: _ => .error (.InvalidStartLine (str ("Too many segments")))

/-- `request/http1_1.rs`, the loop body of `parse_headers`: split each line at
the first `:`; a line without `:` is an invalid header (reported with its
zero-based index); names are lower-cased on insertion. -/
def parseHeadersGo (lineNo : Nat) (headers : HTTPHeaders) :
    List Str → Except RequestParseError HTTPHeaders
  | [] => .ok headers
  | line :: rest =>
    match splitN2 ':' line with
    | [name, value] =>
      parseHeadersGo (lineNo + 1) (hdrInsert headers (toLowerStr name) value) rest
    | _ => .error (.InvalidHeader (str (toString lineNo)))

/-- `request/http1_1.rs`, `parse_headers`. -/
def parseHeaders (lines : List Str) : Except RequestParseError HTTPHeaders :=
  parseHeadersGo 0 [] lines

/-- `request/http1_1.rs`: the `Request` value built by `parse_req`
(method, path, version, headers, optional body). -/
structure Request where
  method : HTTPMethod
  path : Path
  version : HTTPVersion
  headers : HTTPHeaders
  body : Option Str
deriving DecidableEq

/-- `request/http1_1.rs`, `parse_req`: start line from the first line, then
headers up to the first empty line, then the HTTP/1.1 `host` requirement,
then the body (remaining lines concatenated) for POST/PUT/PATCH only. -/
def parseReq (req : Str) : Except RequestParseError Request :=
  match rustLines req with
  | [] => .error (.InvalidStartLine (str ("Missing start line")))
  | startLine :: rest =>
    match parseStartLine startLine with
    | .error e => .error e
    | .ok sl =>
      let headerLines := rest.takeWhile (fun l => !l.isEmpty)
      match parseHeaders headerLines with
      | .error e => .error e
      | .ok headers =>
        if sl.version = .V1_1 ∧ hdrGet headers (str ("host")) = none then
          .error .MissingHostHeader
        else
          let remaining := rest.drop (headerLines.length + 1)
          let body := match sl.method with
            | .Post | .Put | .Patch => some (joinStr remaining)
            | _ => none
          .ok ⟨sl.method, sl.path, sl.version, headers, body⟩

/-- C6: a start line with four space-separated tokens is **not** rejected:
`split(' ').take(3)` silently drops the extra token and the line parses as a
three-token start line, although the `match` in `parse_start_line` has an
explicit (unreachable) `Too many segments` error arm for this case. -/
theorem c6_four_tokens_parse :
    (splitChar ' ' (str ("GET / HTTP/1.1 extra"))).length = 4 ∧
    parseStartLine (str ("GET / HTTP/1.1 extra")) =
      .ok ⟨.Get, .OriginForm (str ("/")), .V1_1⟩ := by
  decide

/-- C7: when the start line parses with version HTTP/1.1 and the header block
parses, `parse_req` fails with the missing-host error exactly when the parsed
lower-cased header map has no `host` key. -/
theorem c7_missing_host_iff (req startLine : Str) (rest : List Str)
    (sl : StartLine) (headers : HTTPHeaders)
    (hlines : rustLines req = startLine :: rest)
    (hsl : parseStartLine startLine = .ok sl)
    (hver : sl.version = .V1_1)
    (hhdrs : parseHeaders (rest.takeWhile (fun l => !l.isEmpty)) = .ok headers) :
    parseReq req = .error .MissingHostHeader ↔
      hdrGet headers (str ("host")) = none := by
  unfold parseReq
  rw [hlines]
  simp only [hsl, hhdrs, hver]
  by_cases hg : hdrGet headers (str ("host")) = none
  · simp [hg]
  · simp [hg]

/-- Witness for C7: the request `GET / HTTP/1.1` (no headers at all) has no
`host` key and indeed fails with the missing-host error. -/
theorem c7_witness :
    parseReq (str ("GET / HTTP/1.1")) = .error .MissingHostHeader ↔
      hdrGet [] (str ("host")) = none :=
  c7_missing_host_iff (str ("GET / HTTP/1.1")) (str ("GET / HTTP/1.1")) []
    ⟨.Get, .OriginForm (str ("/")), .V1_1⟩ [] (by decide) (by decide) rfl rfl

/-! ## Handler registry (`server/handlers.rs`) -/

/-- `request/types.rs`: `impl Display for HTTPMethod` — the `Debug` name
upper-cased. -/
def httpMethodDisplay : HTTPMethod → Str
  | .Get => str ("GET")
  | .Post => str ("POST")
  | .Put => str ("PUT")
  | .Patch => str ("PATCH")
  | .Delete => str ("DELETE")
  | .Connect => str ("CONNECT")
  | .Options => str ("OPTIONS")
  | .Trace => str ("TRACE")
  | .Head => str ("HEAD")

/-- `server/handlers.rs`: `static KEY_DELIMITER: &str`. -/
def KEY_DELIMITER : Str := str ("[##]")

/-- A handler, as seen by the registry: the trait object's `get_method` and
`get_path` results; the `id` field stands for the identity of the trait
object (its behaviour is irrelevant to the registry claims). -/
structure Handler where
  method : HTTPMethod
  path : HandlerPath
  id : Nat
deriving DecidableEq

/-- `server/handlers.rs`: `HandlerRegistryKey::from((method, path))` —
`format!("{0}{KEY_DELIMITER}{1}", method, path)`. -/
def registryKeyFrom (method : HTTPMethod) (path : Str) : Str :=
  httpMethodDisplay method ++ KEY_DELIMITER ++ path

/-- `server/handlers.rs`: `HandlerRegistryKey::from(handler)`. -/
def handlerKey (h : Handler) : Str := registryKeyFrom h.method h.path.val

/-- `HandlerRegistry.handlers : HashMap<HandlerRegistryKey, Arc<_>>`,
modelled as an association list. -/
abbrev HandlerRegistry := List (Str × Handler)

/-- `HashMap::get` on the registry map. -/
def regLookup (reg : HandlerRegistry) (k : Str) : Option Handler :=
  match reg with
  | [] => none
  | (k', h) :: rest => if k' = k then some h else regLookup rest k

/-- `HashMap::contains` (existence of an entry with the key). -/
def regContains (reg : HandlerRegistry) (k : Str) : Bool :=
  (regLookup reg k).isSome

/-- `HashMap::entry(key).or_insert(h)`: keeps the existing entry, otherwise
adds `(key, h)`. -/
def entryOrInsert (reg : HandlerRegistry) (k : Str) (h : Handler) :
    HandlerRegistry :=
  if regContains reg k then reg else reg ++ [(k, h)]

/-- `server/handlers.rs`, `HandlerRegistry::new`: folds
`registry.entry(key).or_insert(h)` over the input vector; no validation of
any kind, and no error return. -/
def registryNew (handlers : List Handler) : HandlerRegistry :=
  handlers.foldl (fun reg h => entryOrInsert reg (handlerKey h) h) []

/-- `server/handlers.rs`, `HandlerRegistry::get`. -/
def registryGet (reg : HandlerRegistry) (method : HTTPMethod)
    (path : HandlerPath) : Option Handler :=
  regLookup reg (registryKeyFrom method path.val)

/-- `server/handlers.rs`: `pub enum HandlerRegistryAddError`. -/
inductive HandlerRegistryAddError where
  | DuplicateKey (key : Str)
  | UnhandlableMethod (method : HTTPMethod)
deriving DecidableEq

/-- `server/handlers.rs`, `RequestDispatcher::add` for `HandlerRegistry`:
rejects TRACE/CONNECT/OPTIONS handlers and duplicate keys; the mutation of
`self` is modelled by returning the new registry. -/
def registryAdd (reg : HandlerRegistry) (handler : Handler) :
    Except HandlerRegistryAddError HandlerRegistry :=
  if handler.method = .Trace ∨ handler.method = .Connect ∨
      handler.method = .Options then
    .error (.UnhandlableMethod handler.method)
  else
    if regContains reg (handlerKey handler) then
      .error (.DuplicateKey (handlerKey handler))
    else
      .ok (reg ++ [(handlerKey handler, handler)])

theorem regLookup_append (m1 m2 : HandlerRegistry) (k : Str) :
    regLookup (m1 ++ m2) k =
      match regLookup m1 k with
      | some v => some v
      | none => regLookup m2 k := by
  induction m1 with
  | nil => rfl
  | cons e rest ih =>
    obtain ⟨k', h⟩ := e
    by_cases hk : k' = k <;> simp [regLookup, hk, ih]

theorem foldl_entryOrInsert_some (hs : List Handler) (acc : HandlerRegistry)
    (k : Str) (v : Handler) (h : regLookup acc k = some v) :
    regLookup
      (hs.foldl (fun reg hh => entryOrInsert reg (handlerKey hh) hh) acc) k =
      some v := by
  induction hs generalizing acc with
  | nil => exact h
  | cons hh t ih =>
    simp only [List.foldl_cons]
    apply ih
    unfold entryOrInsert
    by_cases hc : regContains acc (handlerKey hh) = true
    · rw [if_pos hc]; exact h
    · rw [if_neg hc, regLookup_append, h]

theorem foldl_entryOrInsert_none (hs : List Handler) (acc : HandlerRegistry)
    (k : Str) (h : regLookup acc k = none) :
    regLookup
      (hs.foldl (fun reg hh => entryOrInsert reg (handlerKey hh) hh) acc) k =
      hs.find? (fun hh => decide (handlerKey hh = k)) := by
  induction hs generalizing acc with
  | nil => exact h
  | cons hh t ih =>
    simp only [List.foldl_cons]
    by_cases hk : handlerKey hh = k
    · have hsome :
          regLookup (entryOrInsert acc (handlerKey hh) hh) k = some hh := by
        unfold entryOrInsert
        by_cases hc : regContains acc (handlerKey hh) = true
        · exfalso
          unfold regContains at hc
          rw [hk, h] at hc
          simp at hc
        · rw [if_neg hc, regLookup_append, h]
          simp [regLookup, hk]
      rw [foldl_entryOrInsert_some t _ k hh hsome]
      simp [List.find?, hk]
    · have hnone :
          regLookup (entryOrInsert acc (handlerKey hh) hh) k = none := by
        unfold entryOrInsert
        by_cases hc : regContains acc (handlerKey hh) = true
        · rw [if_pos hc]; exact h
        · rw [if_neg hc, regLookup_append, h]
          simp [regLookup, hk]
      rw [ih _ hnone]
      simp [List.find?, hk]

/-- C9: `HandlerRegistry::new` never reports an error (it is a total
function into a registry); a lookup in the built registry returns the
**first** handler of the input vector with the looked-up key, so later
handlers sharing a key are silently dropped; and no unhandlable-method check
is performed: a TRACE/CONNECT/OPTIONS handler is accepted by `new` and found
by `get`, while `add` rejects the same handler. -/
theorem c9_registry_new_first_wins_no_method_check (hs : List Handler)
    (m : HTTPMethod) (p : HandlerPath) (h : Handler)
    (hm : h.method = .Trace ∨ h.method = .Connect ∨ h.method = .Options) :
    registryGet (registryNew hs) m p =
      hs.find? (fun hh => decide (handlerKey hh = registryKeyFrom m p.val)) ∧
    registryGet (registryNew [h]) h.method h.path = some h ∧
    registryAdd [] h = .error (.UnhandlableMethod h.method) := by
  refine ⟨?_, ?_, ?_⟩
  · unfold registryGet registryNew
    exact foldl_entryOrInsert_none hs [] _ rfl
  · unfold registryGet registryNew
    rw [foldl_entryOrInsert_none [h] [] _ rfl]
    simp [List.find?, handlerKey]
  · unfold registryAdd
    rcases hm with h1 | h1 | h1 <;> rw [h1] <;> simp

/-- Witness for C9: a duplicate-key pair (first wins) and a TRACE handler
accepted by `new` but rejected by `add`. -/
theorem c9_witness :
    registryGet
        (registryNew
          [⟨.Get, ⟨str ("/a")⟩, 0⟩, ⟨.Get, ⟨str ("/a")⟩, 1⟩]) .Get
        ⟨str ("/a")⟩ =
      [(⟨.Get, ⟨str ("/a")⟩, 0⟩ : Handler), ⟨.Get, ⟨str ("/a")⟩, 1⟩].find?
        (fun hh =>
          decide (handlerKey hh = registryKeyFrom .Get (str ("/a")))) ∧
    registryGet (registryNew [⟨.Trace, ⟨str ("/t")⟩, 2⟩]) .Trace
        ⟨str ("/t")⟩ =
      some ⟨.Trace, ⟨str ("/t")⟩, 2⟩ ∧
    registryAdd [] ⟨.Trace, ⟨str ("/t")⟩, 2⟩ =
      .error (.UnhandlableMethod .Trace) :=
  c9_registry_new_first_wins_no_method_check
    [⟨.Get, ⟨str ("/a")⟩, 0⟩, ⟨.Get, ⟨str ("/a")⟩, 1⟩] .Get ⟨str ("/a")⟩
    ⟨.Trace, ⟨str ("/t")⟩, 2⟩ (Or.inl rfl)

/-! ## Responses (`server/response.rs`) -/

/-- Rust `n.to_string()` for unsigned integers. -/
def natToStr (n : Nat) : Str := (toString n).data

/-- `server/response.rs`: `pub enum ResponseStatus` (the `u16` of
`NonStandard` is modelled as a `Nat`). -/
inductive ResponseStatus where
  | Continue | SwitchingProtocols | Processing | EarlyHints
  | OK | Created | Accepted | NonAuthoritativeInformation | NoContent
  | ResetContent | PartialContent | MultiStatus | AlreadyReported | IMUsed
  | MultipleChoices | MovedPermanently | Found | SeeOther | NotModified
  | UseProxy | Unused | TemporaryRedirect | PermanentRedirect
  | BadRequest | Unauthorized | PaymentRequired | Forbidden | NotFound
  | MethodNotAllowed | NotAcceptable | ProxyAuthenticationRequired
  | RequestTimeout | Conflict | Gone | LengthRequired | PreconditionFailed
  | ContentTooLarge | URITooLong | UnsupportedMediaType | RangeNotSatisfiable
  | ExpectationFailed | Imateapot | MisdirectedRequest | UnprocessableContent
  | Locked | FailedDependency | TooEarly | UpgradeRequired
  | PreconditionRequired | TooManyRequests | RequestHeaderFieldsTooLarge
  | UnavailableForLegalReasons
  | InternalServerError | NotImplemented | BadGateway | ServiceUnavailable
  | GatewayTimeout | HTTPVersionNotSupported | VariantAlsoNegotiates
  | InsufficientStorage | LoopDetected | NotExtended
  | NetworkAuthenticationRequired
  | NonStandard (code : Nat) (phrase : Str)

/-- The `derive(Debug)` name of each variant, as used by the catch-all arm of
`Display for ResponseStatus` via `format!("{pascal_cased:?}")`.  The
`NonStandard` entry is never consulted: `Display` matches it before reaching
the catch-all. -/
def statusDebugName : ResponseStatus → Str
  | .Continue => str ("Continue")
  | .SwitchingProtocols => str ("SwitchingProtocols")
  | .Processing => str ("Processing")
  | .EarlyHints => str ("EarlyHints")
  | .OK => str ("OK")
  | .Created => str ("Created")
  | .Accepted => str ("Accepted")
  | .NonAuthoritativeInformation => str ("NonAuthoritativeInformation")
  | .NoContent => str ("NoContent")
  | .ResetContent => str ("ResetContent")
  | .PartialContent => str ("PartialContent")
  | .MultiStatus => str ("MultiStatus")
  | .AlreadyReported => str ("AlreadyReported")
  | .IMUsed => str ("IMUsed")
  | .MultipleChoices => str ("MultipleChoices")
  | .MovedPermanently => str ("MovedPermanently")
  | .Found => str ("Found")
  | .SeeOther => str ("SeeOther")
  | .NotModified => str ("NotModified")
  | .UseProxy => str ("UseProxy")
  | .Unused => str ("Unused")
  | .TemporaryRedirect => str ("TemporaryRedirect")
  | .PermanentRedirect => str ("PermanentRedirect")
  | .BadRequest => str ("BadRequest")
  | .Unauthorized => str ("Unauthorized")
  | .PaymentRequired => str ("PaymentRequired")
  | .Forbidden => str ("Forbidden")
  | .NotFound => str ("NotFound")
  | .MethodNotAllowed => str ("MethodNotAllowed")
  | .NotAcceptable => str ("NotAcceptable")
  | .ProxyAuthenticationRequired => str ("ProxyAuthenticationRequired")
  | .RequestTimeout => str ("RequestTimeout")
  | .Conflict => str ("Conflict")
  | .Gone => str ("Gone")
  | .LengthRequired => str ("LengthRequired")
  | .PreconditionFailed => str ("PreconditionFailed")
  | .ContentTooLarge => str ("ContentTooLarge")
  | .URITooLong => str ("URITooLong")
  | .UnsupportedMediaType => str ("UnsupportedMediaType")
  | .RangeNotSatisfiable => str ("RangeNotSatisfiable")
  | .ExpectationFailed => str ("ExpectationFailed")
  | .Imateapot => str ("Imateapot")
  | .MisdirectedRequest => str ("MisdirectedRequest")
  | .UnprocessableContent => str ("UnprocessableContent")
  | .Locked => str ("Locked")
  | .FailedDependency => str ("FailedDependency")
  | .TooEarly => str ("TooEarly")
  | .UpgradeRequired => str ("UpgradeRequired")
  | .PreconditionRequired => str ("PreconditionRequired")
  | .TooManyRequests => str ("TooManyRequests")
  | .RequestHeaderFieldsTooLarge => str ("RequestHeaderFieldsTooLarge")
  | .UnavailableForLegalReasons => str ("UnavailableForLegalReasons")
  | .InternalServerError => str ("InternalServerError")
  | .NotImplemented => str ("NotImplemented")
  | .BadGateway => str ("BadGateway")
  | .ServiceUnavailable => str ("ServiceUnavailable")
  | .GatewayTimeout => str ("GatewayTimeout")
  | .HTTPVersionNotSupported => str ("HTTPVersionNotSupported")
  | .VariantAlsoNegotiates => str ("VariantAlsoNegotiates")
  | .InsufficientStorage => str ("InsufficientStorage")
  | .LoopDetected => str ("LoopDetected")
  | .NotExtended => str ("NotExtended")
  | .NetworkAuthenticationRequired => str ("NetworkAuthenticationRequired")
  | .NonStandard _ _ => str ("NonStandard")

/-- `server/response.rs`, `ResponseStatus::to_code`. -/
def toCode : ResponseStatus → Nat
  | .Continue => 100
  | .SwitchingProtocols => 101
  | .Processing => 102
  | .EarlyHints => 103
  | .OK => 200
  | .Created => 201
  | .Accepted => 202
  | .NonAuthoritativeInformation => 203
  | .NoContent => 204
  | .ResetContent => 205
  | .PartialContent => 206
  | .MultiStatus => 207
  | .AlreadyReported => 208
  | .IMUsed => 226
  | .MultipleChoices => 300
  | .MovedPermanently => 301
  | .Found => 302
  | .SeeOther => 303
  | .NotModified => 304
  | .UseProxy => 305
  | .Unused => 306
  | .TemporaryRedirect => 307
  | .PermanentRedirect => 308
  | .BadRequest => 400
  | .Unauthorized => 401
  | .PaymentRequired => 402
  | .Forbidden => 403
  | .NotFound => 404
  | .MethodNotAllowed => 405
  | .NotAcceptable => 406
  | .ProxyAuthenticationRequired => 407
  | .RequestTimeout => 408
  | .Conflict => 409
  | .Gone => 410
  | .LengthRequired => 411
  | .PreconditionFailed => 412
  | .ContentTooLarge => 413
  | .URITooLong => 414
  | .UnsupportedMediaType => 415
  | .RangeNotSatisfiable => 416
  | .ExpectationFailed => 417
  | .Imateapot => 418
  | .MisdirectedRequest => 421
  | .UnprocessableContent => 422
  | .Locked => 423
  | .FailedDependency => 424
  | .TooEarly => 425
  | .UpgradeRequired => 426
  | .PreconditionRequired => 428
  | .TooManyRequests => 429
  | .RequestHeaderFieldsTooLarge => 431
  | .UnavailableForLegalReasons => 451
  | .InternalServerError => 500
  | .NotImplemented => 501
  | .BadGateway => 502
  | .ServiceUnavailable => 503
  | .GatewayTimeout => 504
  | .HTTPVersionNotSupported => 505
  | .VariantAlsoNegotiates => 506
  | .InsufficientStorage => 507
  | .LoopDetected => 508
  | .NotExtended => 510
  | .NetworkAuthenticationRequired => 511
  | .NonStandard code _ => code

/-- `server/response.rs`, `unpascal_case`: the effect of
`Regex::new("([a-z])([A-Z])").replace_all(s, "$1 $2")` — a space is inserted
at every interior ASCII lower-to-upper boundary (the regex replacement is
non-overlapping, and since a match ends on an uppercase letter no boundary
can be skipped). -/
def unpascalCase : Str → Str
  | a :: b :: rest =>
    if a.isLower && b.isUpper then a :: ' ' :: unpascalCase (b :: rest)
    else a :: unpascalCase (b :: rest)
  | s => s

/-- The apostrophe character (codepoint 39). -/
def apostrophe : Char := Char.ofNat 39

/-- `server/response.rs`, `impl Display for ResponseStatus`.  Note the
source literally writes the phrase `Mutli-Status` for `MultiStatus`.  The
`Imateapot` phrase is I&#39;m A Teapot (with an apostrophe). -/
def responseStatusDisplay (s : ResponseStatus) : Str :=
  match s with
  | .NonAuthoritativeInformation => str ("Non-Authoritative Information")
  | .MultiStatus => str ("Mutli-Status")
  | .Imateapot => str ("I") ++ [apostrophe] ++ str ("m A Teapot")
  | .NonStandard code name => natToStr code ++ [' '] ++ name
  | other => unpascalCase (statusDebugName other)

/-- C8: the reason phrase for `MultiStatus` is the misspelt `Mutli-Status`,
not `Multi-Status` as the claim (and the HTTP standard) state; the generic
lower-to-upper splitting rule itself behaves as claimed (witnessed on
`NotFound` and `OK`). -/
theorem c8_multistatus_misspelt :
    responseStatusDisplay .MultiStatus = str ("Mutli-Status") ∧
    responseStatusDisplay .MultiStatus ≠ str ("Multi-Status") ∧
    responseStatusDisplay .NotFound = str ("Not Found") ∧
    responseStatusDisplay .OK = str ("OK") := by
  decide

/-- The UTF-8 byte count of a character (Rust `String::len` counts bytes). -/
def charUtf8Size (c : Char) : Nat :=
  if c.toNat < 128 then 1
  else if c.toNat < 2048 then 2
  else if c.toNat < 65536 then 3
  else 4

/-- Rust `String::len`: the UTF-8 byte length. -/
def utf8Len (s : Str) : Nat := s.foldr (fun c n => charUtf8Size c + n) 0

/-- Rust `str::contains(needle)` for a string needle. -/
def containsSub : Str → Str → Bool
  | [], needle => needle.isEmpty
  | c :: t, needle => needle.isPrefixOf (c :: t) || containsSub t needle

/-- `HashMap::entry(k).or_insert(v)`: keeps an existing entry for `k`,
otherwise adds `(k, v)`. -/
def insertIfAbsent (m : HTTPHeaders) (k v : Str) : HTTPHeaders :=
  match m with
  | [] => [(k, v)]
  | (k', v') :: rest =>
    if k' = k then (k', v') :: rest else (k', v') :: insertIfAbsent rest k v

/-- `server/response.rs`: `pub struct Response` without the owned stream
(the stream carries no data relevant to construction or serialization). -/
structure Response where
  version : HTTPVersion
  status : ResponseStatus
  headers : HTTPHeaders
  body : Str

/-- `server/response.rs`, `ensure_headers`: for a non-empty body, insert
`content-length` (lower-cased key, via `insert_if_absent`) when absent, and
append `; charset=UTF-8` to an existing `content-type` value that does not
mention `charset` (via `set_header`, which lower-cases its key). -/
def ensureHeaders (res : Response) : Response :=
  if res.body = [] then res
  else
    let headers1 := insertIfAbsent res.headers
      (toLowerStr (str ("Content-Length"))) (natToStr (utf8Len res.body))
    match hdrGet headers1 (toLowerStr (str ("Content-Type"))) with
    | some ct =>
      if containsSub ct (str ("charset")) = false then
        { res with headers := (hdrInsert headers1
            (toLowerStr (str ("Content-Type")))
            (ct ++ str ("; charset=UTF-8"))) }
      else { res with headers := headers1 }
    | none => { res with headers := headers1 }

/-- `server/response.rs`, `Response::new`: stores the fields and runs
`ensure_headers`. -/
def responseNew (version : HTTPVersion) (status : ResponseStatus)
    (headers : HTTPHeaders) (body : Str) : Response :=
  ensureHeaders ⟨version, status, headers, body⟩

/-- `\r\n` (`CARRIAGE_RETURN` in `listener.rs`, written inline in
`response.rs` format strings). -/
def CRLF : Str := str ("\r\n")

/-- `server/response.rs`, `title_case_header`: upper-case the first letter of
every `-`-separated segment (ASCII). -/
def titleCaseHeader (s : Str) : Str :=
  List.intercalate (str ("-"))
    ((splitChar '-' s).map (fun word =>
      match word with
      | [] => []
      | head :: rest => Char.toUpper head :: rest))

/-- One `<Title-Cased-Header>: <value>\r\n` line written by the header fold
of `format_http1_x`. -/
def headerLine (kv : Str × Str) : Str :=
  titleCaseHeader kv.fst ++ str (": ") ++ kv.snd ++ CRLF

/-- `request/types.rs`, `impl Display for HTTPVersion`. -/
def httpVersionDisplay : HTTPVersion → Str
  | .V0_9 => str ("HTTP/0.9")
  | .V1_0 => str ("HTTP/1.0")
  | .V1_1 => str ("HTTP/1.1")
  | .V2 => str ("HTTP/2")
  | .V3 => str ("HTTP/3")

/-- `server/response.rs`, `format_http1_x`:
`"{version} {code} {reason}\r\n{headers}\r\n{body}"` where the header block
is the concatenation of one `headerLine` per map entry (the fold over the
`HashMap` is modelled as map-and-concatenate in list order). -/
def formatHttp1x (res : Response) : Str :=
  httpVersionDisplay res.version ++ [' '] ++ natToStr (toCode res.status) ++
    [' '] ++ responseStatusDisplay res.status ++ CRLF ++
    joinStr (res.headers.map headerLine) ++ CRLF ++ res.body

theorem insertIfAbsent_of_none (m : HTTPHeaders) (k v : Str)
    (h : hdrGet m k = none) : insertIfAbsent m k v = m ++ [(k, v)] := by
  induction m with
  | nil => rfl
  | cons e rest ih =>
    obtain ⟨k', v'⟩ := e
    by_cases hk : k' = k
    · exfalso; simp [hdrGet, hk] at h
    · simp only [insertIfAbsent, if_neg hk, List.cons_append, List.cons.injEq,
        true_and]
      exact ih (by simpa [hdrGet, hk] using h)

theorem mem_hdrInsert_of_ne (m : HTTPHeaders) (k v k' v' : Str)
    (hmem : (k, v) ∈ m) (hne : k ≠ k') : (k, v) ∈ hdrInsert m k' v' := by
  induction m with
  | nil => cases hmem
  | cons e rest ih =>
    obtain ⟨k0, v0⟩ := e
    unfold hdrInsert
    by_cases h0 : k0 = k'
    · rw [if_pos h0]
      rcases List.mem_cons.mp hmem with heq | hrest
      · exact absurd ((congrArg Prod.fst heq).trans h0) hne
      · exact List.mem_cons_of_mem _ hrest
    · rw [if_neg h0]
      rcases List.mem_cons.mp hmem with heq | hrest
      · rw [heq]
        exact List.mem_cons_self _ _
      · exact List.mem_cons_of_mem _ (ih hrest)

/-- C5 counterexample: a response constructed with a pre-existing
`content-length` header keeps that value (`insert_if_absent`), so the
serialized header lines contain `Content-Length: 999` and **no**
`Content-Length` equal to the body's byte length (2 for body `AB`). -/
theorem c5_preset_content_length_counterexample :
    (responseNew .V1_1 .OK [(str ("content-length"), str ("999"))]
          (str ("AB"))).headers.map headerLine =
        [str ("Content-Length: 999") ++ CRLF] ∧
    ¬ (str ("Content-Length: ") ++ natToStr (utf8Len (str ("AB"))) ++ CRLF) ∈
        (responseNew .V1_1 .OK [(str ("content-length"), str ("999"))]
          (str ("AB"))).headers.map headerLine := by
  decide

/-- C5 (amended): for every response built by `Response::new` with a
non-empty body whose supplied headers do **not** already contain the
`content-length` key, the serialized header block contains the line
`Content-Length: <byte length of the body>`. -/
theorem c5_content_length_when_absent (version : HTTPVersion)
    (status : ResponseStatus) (headers : HTTPHeaders) (body : Str)
    (hb : ¬ body = []) (hcl : hdrGet headers (str ("content-length")) = none) :
    (str ("Content-Length: ") ++ natToStr (utf8Len body) ++ CRLF) ∈
      (responseNew version status headers body).headers.map headerLine := by
  have hlow : toLowerStr (str ("Content-Length")) = str ("content-length") := by
    decide
  have hA : insertIfAbsent headers (toLowerStr (str ("Content-Length")))
      (natToStr (utf8Len body)) =
      headers ++ [(toLowerStr (str ("Content-Length")),
        natToStr (utf8Len body))] := by
    apply insertIfAbsent_of_none
    rw [hlow, hcl]
  have hmem0 : (toLowerStr (str ("Content-Length")), natToStr (utf8Len body)) ∈
      insertIfAbsent headers (toLowerStr (str ("Content-Length")))
        (natToStr (utf8Len body)) := by
    rw [hA]
    exact List.mem_append_right _ (List.mem_singleton.mpr rfl)
  have hline : headerLine (toLowerStr (str ("Content-Length")),
      natToStr (utf8Len body)) =
      str ("Content-Length: ") ++ natToStr (utf8Len body) ++ CRLF := by
    unfold headerLine
    have h1 : titleCaseHeader (toLowerStr (str ("Content-Length"))) =
        str ("Content-Length") := by decide
    have h2 : str ("Content-Length") ++ str (": ") =
        str ("Content-Length: ") := by decide
    rw [h1, ← h2]
  unfold responseNew ensureHeaders
  rw [if_neg hb]
  simp only []
  cases hct : hdrGet (insertIfAbsent headers (toLowerStr (str ("Content-Length")))
      (natToStr (utf8Len body))) (toLowerStr (str ("Content-Type"))) with
  | none =>
    simp only [hct]
    rw [← hline]
    exact List.mem_map_of_mem headerLine hmem0
  | some ct =>
    simp only [hct]
    by_cases hch : containsSub ct (str ("charset")) = false
    · rw [if_pos hch]
      rw [← hline]
      apply List.mem_map_of_mem headerLine
      apply mem_hdrInsert_of_ne _ _ _ _ _ hmem0
      rw [hlow]
      decide
    · rw [if_neg hch]
      rw [← hline]
      exact List.mem_map_of_mem headerLine hmem0

/-- Witness for C5: `Response::new(V1_1, OK, {}, "AB")` serializes with a
`Content-Length: 2` line. -/
theorem c5_witness :
    (str ("Content-Length: ") ++ natToStr (utf8Len (str ("AB"))) ++ CRLF) ∈
      (responseNew .V1_1 .OK [] (str ("AB"))).headers.map headerLine :=
  c5_content_length_when_absent .V1_1 .OK [] (str ("AB")) (by decide) rfl

/-! ## Dispatch errors (`server/handlers.rs`) and the listener
(`server/listener.rs`) -/

/-- `request/types.rs`, `impl Display for Path`. -/
def pathDisplay : Path → Str
  | .OriginForm path => path
  | .AbsoluteForm path => path
  | .AuthorityForm host port => host ++ str (":") ++ natToStr port
  | .Asterisk => str ("*")

/-- `server/handlers.rs`: `pub enum HandlerCallErrorReason`. -/
inductive HandlerCallErrorReason where
  | UnhandlablePath (path : Path)
  | NoCompatibleHandler (method : HTTPMethod) (path : Path)

/-- `server/handlers.rs`: `pub struct HandlerCallError` without the boxed
stream (the stream is only threaded through to the response builder and
carries no data). -/
structure HandlerCallError where
  reason : HandlerCallErrorReason
  http_version : HTTPVersion
  path : Path

/-- `server/response.rs`: `pub struct ResponseBuilder`; the boxed stream
field is modelled by whether it has been set. -/
structure ResponseBuilder where
  version : Option HTTPVersion := none
  status : Option ResponseStatus := none
  headers : Option HTTPHeaders := none
  body : Option Str := none
  streamSet : Bool := false

/-- `server/handlers.rs`, `DispatcherError::as_status_code` for
`HandlerCallError`: the source collapses **both** reasons into one `match`
arm (`UnhandlablePath(_) | NoCompatibleHandler(_, _)`) returning
`ResponseStatus::NotFound`. -/
def asStatusCode (e : HandlerCallError) : ResponseStatus :=
  match e.reason with
  | .UnhandlablePath _ => .NotFound
  | .NoCompatibleHandler _ _ => .NotFound

/-- `server/handlers.rs`, `DispatcherError::into_response` for
`HandlerCallError`: a builder carrying the error's version and stream, with
`bad_request()` and body `Malformed URL path <path>` for `UnhandlablePath`,
and `not_found()` and body `No matching handler found for <method> <path>`
for `NoCompatibleHandler`. -/
def intoResponse (e : HandlerCallError) : ResponseBuilder :=
  let builder : ResponseBuilder :=
    { version := some e.http_version, streamSet := true }
  match e.reason with
  | .UnhandlablePath path =>
    { builder with
        status := some ResponseStatus.BadRequest
        body := some (str ("Malformed URL path ") ++ pathDisplay path) }
  | .NoCompatibleHandler method path =>
    { builder with
        status := some ResponseStatus.NotFound
        body := some (str ("No matching handler found for ") ++
          httpMethodDisplay method ++ [' '] ++ pathDisplay path) }

/-- C4: `as_status_code` maps **both** `UnhandlablePath` and
`NoCompatibleHandler` to 404 Not Found, while `into_response` maps the same
`UnhandlablePath` error to 400 Bad Request — the two accessors disagree, and
`as_status_code` contradicts the claimed (and documented) 400 mapping. -/
theorem c4_as_status_code_contradicts_into_response :
    asStatusCode ⟨.UnhandlablePath .Asterisk, .V1_1, .Asterisk⟩ = .NotFound ∧
    (intoResponse ⟨.UnhandlablePath .Asterisk, .V1_1, .Asterisk⟩).status =
      some .BadRequest ∧
    asStatusCode ⟨.NoCompatibleHandler .Get (.OriginForm (str ("/x"))),
      .V1_1, .OriginForm (str ("/x"))⟩ = .NotFound ∧
    (intoResponse ⟨.NoCompatibleHandler .Get (.OriginForm (str ("/x"))),
      .V1_1, .OriginForm (str ("/x"))⟩).status = some .NotFound ∧
    ResponseStatus.NotFound ≠ ResponseStatus.BadRequest := by
  refine ⟨rfl, rfl, rfl, rfl, ?_⟩
  intro h
  cases h

/-- `request/types.rs`: `pub struct RequestHead`. -/
structure RequestHead where
  method : HTTPMethod
  path : Path
  version : HTTPVersion
  headers : HTTPHeaders

/-- `std::io::ErrorKind` — only the kind used by `handle_connection`. -/
inductive IoErrorKind where
  | invalidData

/-- `std::io::Error`: a kind and a message. -/
structure IoErr where
  kind : IoErrorKind
  msg : Str

/-- The externally observable effects of one
`HTTPListener::handle_connection` call: the data written back on the TCP
stream by this function, the requests enqueued on the worker pool, and the
returned `Result`. -/
structure ConnectionOutcome where
  writes : List Str
  enqueued : List RequestHead
  result : Except IoErr Unit

/-- `server/listener.rs`, `HTTPListener::handle_connection`, modelled as a
function of the head-parse outcome (the head parser it calls,
`http1_1::parse_req_head`, is not among the sources; only its callers are —
its result is therefore taken as the argument).  On a parse error the
function maps the error to `ErrorKind::InvalidData` and returns it via `?`;
on success it constructs the `Request` and enqueues it.  No branch writes
anything to the stream. -/
def handleConnection (parsed : Except RequestParseError RequestHead) :
    ConnectionOutcome :=
  match parsed with
  | .error _ =>
    { writes := [], enqueued := [],
      result := .error ⟨.invalidData,
        str ("Could not parse message as HTTP request")⟩ }
  | .ok head =>
    { writes := [], enqueued := [head], result := .ok () }

/-- C3 counterexample: for a failing head parse, `handle_connection` writes
**nothing** on the connection (in particular no 400 Bad Request response);
it returns an `InvalidData` I/O error which the accept loop merely logs. -/
theorem c3_no_response_on_parse_failure :
    (¬ ∃ w, w ∈ (handleConnection
        (.error (.InvalidStartLine (str ("Empty"))))).writes) ∧
    (handleConnection (.error (.InvalidStartLine (str ("Empty"))))).result =
      .error ⟨.invalidData,
        str ("Could not parse message as HTTP request")⟩ := by
  refine ⟨?_, rfl⟩
  rintro ⟨w, hw⟩
  exact List.not_mem_nil w hw

/-- C3 (amended): whenever parsing the request head fails — for every parse
error — `handle_connection` writes nothing on the connection, enqueues
nothing, and returns an `InvalidData` I/O error (—which the accept loop in
`listen` only logs). -/
theorem c3_parse_failure_io_error (e : RequestParseError) :
    handleConnection (.error e) =
      { writes := [], enqueued := [],
        result := .error ⟨.invalidData,
          str ("Could not parse message as HTTP request")⟩ } := rfl

end HttpServer
